import Mathlib

/-!
Verification of the academic result-computation pipeline of the
Result-analysis-system repository (grade ladders, subject-result generation,
SGPA aggregation, cohort ranking, class statistics).

JavaScript numeric semantics are embedded shallowly: finite values are exact
rationals, and the non-finite values `NaN`, `Infinity` and `-Infinity` are
explicit constructors, so that the unguarded divisions and the
`parseInt`-on-non-digits paths of the source are represented faithfully.
-/

namespace ResultAnalysis

/-- A JavaScript number: a finite value (modelled exactly as a rational),
`NaN`, `Infinity` or `-Infinity`. -/
inductive JSNum where
  | num (q : ℚ)
  | nan
  | inf
  | ninf
deriving DecidableEq, Repr


/-- JavaScript `+` on numbers. `NaN` propagates; `Infinity + -Infinity` is `NaN`. -/
def jsAdd : JSNum → JSNum → JSNum
  | .num a, .num b => .num (a + b)
  | .inf, .ninf => .nan
  | .ninf, .inf => .nan
  | .inf, .num _ => .inf
  | .num _, .inf => .inf
  | .inf, .inf => .inf
  | .ninf, .num _ => .ninf
  | .num _, .ninf => .ninf
  | .ninf, .ninf => .ninf
  | _, _ => .nan

/-- JavaScript unary minus. -/
def jsNeg : JSNum → JSNum
  | .num a => .num (-a)
  | .nan => .nan
  | .inf => .ninf
  | .ninf => .inf

/-- JavaScript `-` on numbers. -/
def jsSub (a b : JSNum) : JSNum := jsAdd a (jsNeg b)

/-- JavaScript `*` on numbers. `NaN` propagates; `Infinity * 0` is `NaN`. -/
def jsMul : JSNum → JSNum → JSNum
  | .num a, .num b => .num (a * b)
  | .inf, .inf => .inf
  | .inf, .ninf => .ninf
  | .ninf, .inf => .ninf
  | .ninf, .ninf => .inf
  | .inf, .num b => if 0 < b then .inf else if b < 0 then .ninf else .nan
  | .num a, .inf => if 0 < a then .inf else if a < 0 then .ninf else .nan
  | .ninf, .num b => if 0 < b then .ninf else if b < 0 then .inf else .nan
  | .num a, .ninf => if 0 < a then .ninf else if a < 0 then .inf else .nan
  | _, _ => .nan

/-- JavaScript `/` on numbers: `0 / 0` is `NaN`, a nonzero finite value divided
by `0` is a signed infinity, and `NaN` propagates. -/
def jsDiv : JSNum → JSNum → JSNum
  | .num a, .num b =>
      if b = 0 then (if a = 0 then .nan else if 0 < a then .inf else .ninf)
      else .num (a / b)
  | .num _, .inf => .num 0
  | .num _, .ninf => .num 0
  | .inf, .num b => if b < 0 then .ninf else .inf
  | .ninf, .num b => if b < 0 then .inf else .ninf
  | _, _ => .nan

/-- Truncation toward zero, as used by the JavaScript `%` operator. -/
def qTrunc (q : ℚ) : ℤ := if 0 ≤ q then ⌊q⌋ else -⌊-q⌋

/-- JavaScript `%` (remainder with the sign of the dividend). A finite value
modulo `±Infinity` is the value itself; any `NaN` operand, an infinite
dividend, or a zero divisor gives `NaN`. -/
def jsMod : JSNum → JSNum → JSNum
  | .num a, .num b => if b = 0 then .nan else .num (a - b * qTrunc (a / b))
  | .num a, .inf => .num a
  | .num a, .ninf => .num a
  | _, _ => .nan

/-- JavaScript `>=` comparison: any comparison against `NaN` is `false`. -/
def jsGe : JSNum → JSNum → Bool
  | .nan, _ => false
  | _, .nan => false
  | .num a, .num b => decide (b ≤ a)
  | .inf, _ => true
  | _, .inf => false
  | _, .ninf => true
  | .ninf, _ => false

/-- JavaScript `Math.max` (binary): `NaN` if either argument is `NaN`. -/
def jsMax : JSNum → JSNum → JSNum
  | .nan, _ => .nan
  | _, .nan => .nan
  | .num a, .num b => .num (max a b)
  | .inf, _ => .inf
  | _, .inf => .inf
  | .ninf, b => b
  | a, .ninf => a

/-- JavaScript `Math.min` (binary): `NaN` if either argument is `NaN`. -/
def jsMin : JSNum → JSNum → JSNum
  | .nan, _ => .nan
  | _, .nan => .nan
  | .num a, .num b => .num (min a b)
  | .ninf, _ => .ninf
  | _, .ninf => .ninf
  | .inf, b => b
  | a, .inf => a

/-- JavaScript `Math.floor`. -/
def jsFloor : JSNum → JSNum
  | .num q => .num ⌊q⌋
  | .nan => .nan
  | .inf => .inf
  | .ninf => .ninf

/-- JavaScript `Math.round` (round half toward positive infinity). -/
def jsRound : JSNum → JSNum
  | .num q => .num ⌊q + 1 / 2⌋
  | .nan => .nan
  | .inf => .inf
  | .ninf => .ninf

/-- Model of JavaScript `parseInt(s)` (radix 10) for the strings occurring in
this repository (no sign, no leading whitespace): the longest prefix of decimal
digits is parsed, and if the string does not start with a digit the result is
`NaN`. -/
def parseIntJS (s : String) : JSNum :=
  let ds := s.data.takeWhile Char.isDigit
  if ds = [] then .nan
  else .num ((ds.foldl (fun n c => 10 * n + (c.toNat - 48)) 0 : ℕ) : ℚ)

/-- Model of `x.toFixed(2)` followed by `parseFloat`: a finite value is rounded
to two decimal places, half away from the smaller value (the larger candidate
wins ties, as specified for `toFixed`). -/
def jsToFixed2 : JSNum → JSNum
  | .num q => .num ((⌊q * 100 + 1 / 2⌋ : ℚ) / 100)
  | .nan => .nan
  | .inf => .inf
  | .ninf => .ninf

/-- Model of `getRandomInt(min, max)` from the sample-data generators:
`Math.floor(Math.random() * (max - min + 1)) + min`, with the `Math.random()`
output `r` passed explicitly. -/
def getRandomInt (lo hi : ℤ) (r : ℚ) : ℤ := ⌊r * ((hi : ℚ) - (lo : ℚ) + 1)⌋ + lo

/-- Model of `s.charCodeAt(i)`: `NaN` when the index is out of range. -/
def charCodeAt (s : String) (i : ℕ) : JSNum :=
  match s.data.drop i with
  | [] => .nan
  | c :: _ => .num c.toNat

/-- A catalog entry of the subject lists (`btechSubjects`, `eceSubjects`,
`standardSubjects`) of the sample-data generators. -/
structure SubjectDef where
  name : String
  courseCode : String
  credits : ℕ
  type : String
  totalMarks : ℕ
deriving DecidableEq, Repr

/-- A computed per-subject result record, as returned by `generateSubjectResult`
(part_001 and part_000) and by the per-subject body of
`generateSubjectsForJNTUA` (pdfService). -/
structure SubjectResult where
  name : String
  courseCode : String
  credits : ℕ
  type : String
  totalMarks : ℕ
  internalMarks : JSNum
  externalMarks : JSNum
  marksObtained : JSNum
  grade : String
  gradePoints : ℕ
deriving DecidableEq, Repr

/-- Scheme S grade ladder (`S/A/B/C/D/E/F`), exactly the `if`-chain of
`generateSubjectResult` in part_001 and of `generateSubjectsForJNTUA` in
pdfService, applied to the (possibly `NaN`) `marksObtained` value. -/
def gradeOfS (m : JSNum) : String × ℕ :=
  if jsGe m (.num 90) then ("S", 10)
  else if jsGe m (.num 80) then ("A", 9)
  else if jsGe m (.num 70) then ("B", 8)
  else if jsGe m (.num 60) then ("C", 7)
  else if jsGe m (.num 50) then ("D", 6)
  else if jsGe m (.num 40) then ("E", 5)
  else ("F", 0)

/-- Scheme A grade ladder (`A+/A/B+/B/C+/C/F`), exactly the `if`-chain of
`generateSubjectResult` in part_000. -/
def gradeOfA (m : JSNum) : String × ℕ :=
  if jsGe m (.num 90) then ("A+", 10)
  else if jsGe m (.num 80) then ("A", 9)
  else if jsGe m (.num 70) then ("B+", 8)
  else if jsGe m (.num 60) then ("B", 7)
  else if jsGe m (.num 50) then ("C+", 6)
  else if jsGe m (.num 40) then ("C", 5)
  else ("F", 0)

/-- `generateSubjectResult(subject, studentRoll)` from part_001.  The up to
three `Math.random()` outputs the call can consume are passed explicitly, in
consumption order: `r1` feeds the `marksVariance` draw, and on the internship
branch `r2` feeds `externalMarks` and `r3` feeds `marksObtained`. -/
def generateSubjectResult (subject : SubjectDef) (studentRoll : String)
    (r1 r2 r3 : ℚ) : SubjectResult :=
  let rollSeed := jsMod (parseIntJS (studentRoll.takeRight 2)) (.num 10)
  let baseMarks := jsAdd (.num 65) (jsMod (jsMul rollSeed (.num 3)) (.num 20))
  let marksVariance : ℤ :=
    if subject.type = "Lab" then getRandomInt 5 15 r1
    else if subject.name = "Cryptography & Network Security" then getRandomInt (-10) 5 r1
    else if subject.name = "Full Stack Development" then getRandomInt (-8) 8 r1
    else getRandomInt (-5) 10 r1
  if subject.courseCode = "20A05707" then
    { name := subject.name, courseCode := subject.courseCode, credits := subject.credits,
      type := subject.type, totalMarks := subject.totalMarks,
      internalMarks := .num 0,
      externalMarks := .num (getRandomInt 90 99 r2),
      marksObtained := .num (getRandomInt 90 99 r3),
      grade := "S", gradePoints := 10 }
  else
    let marksObtained := jsMin (.num 100) (jsMax (.num 40) (jsAdd baseMarks (.num marksVariance)))
    let internalMarks := jsRound (jsMul marksObtained (.num (2 / 5)))
    let externalMarks := jsSub marksObtained internalMarks
    let g := gradeOfS marksObtained
    { name := subject.name, courseCode := subject.courseCode, credits := subject.credits,
      type := subject.type, totalMarks := subject.totalMarks,
      internalMarks := internalMarks, externalMarks := externalMarks,
      marksObtained := marksObtained, grade := g.1, gradePoints := g.2 }

/-- `generateSubjectResult(subject, studentRoll)` from part_000 (the ECE
sample-data generator): identical to the part_001 version except for the
subject names steering the variance draw, the absence of an external-only
special case, and the Scheme A grade letters. -/
def generateSubjectResultECE (subject : SubjectDef) (studentRoll : String)
    (r1 : ℚ) : SubjectResult :=
  let rollSeed := jsMod (parseIntJS (studentRoll.takeRight 2)) (.num 10)
  let baseMarks := jsAdd (.num 65) (jsMod (jsMul rollSeed (.num 3)) (.num 20))
  let marksVariance : ℤ :=
    if subject.type = "Lab" then getRandomInt 5 15 r1
    else if subject.name = "Electromagnetic Theory" then getRandomInt (-10) 5 r1
    else if subject.name = "Signals and Systems" then getRandomInt (-8) 8 r1
    else getRandomInt (-5) 10 r1
  let marksObtained := jsMin (.num 100) (jsMax (.num 40) (jsAdd baseMarks (.num marksVariance)))
  let internalMarks := jsRound (jsMul marksObtained (.num (2 / 5)))
  let externalMarks := jsSub marksObtained internalMarks
  let g := gradeOfA marksObtained
  { name := subject.name, courseCode := subject.courseCode, credits := subject.credits,
    type := subject.type, totalMarks := subject.totalMarks,
    internalMarks := internalMarks, externalMarks := externalMarks,
    marksObtained := marksObtained, grade := g.1, gradePoints := g.2 }

/-- The per-subject body of the `standardSubjects.map` inside
`generateSubjectsForJNTUA(hallTicket)` from pdfService (deterministic in the
hall ticket). -/
def subjectForJNTUA (subject : SubjectDef) (hallTicket : String) : SubjectResult :=
  let rollSeed := jsMod (parseIntJS (hallTicket.takeRight 3)) (.num 100)
  if subject.courseCode = "20A05707" then
    let externalMarks := jsMin (.num 100) (jsMax (.num 90) (jsAdd (.num 95) (jsMod rollSeed (.num 5))))
    { name := subject.name, courseCode := subject.courseCode, credits := subject.credits,
      type := subject.type, totalMarks := subject.totalMarks,
      internalMarks := .num 0, externalMarks := externalMarks,
      marksObtained := externalMarks, grade := "S", gradePoints := 10 }
  else
    let baseMarks := jsAdd (.num 65)
      (jsMod (jsAdd rollSeed (charCodeAt subject.courseCode 5)) (.num 25))
    let adjustment : ℚ := if subject.type = "Lab" then 10 else 0
    let marksObtained := jsMin (.num 100) (jsMax (.num 40) (jsAdd baseMarks (.num adjustment)))
    let internalMarks := jsRound (jsMul marksObtained (.num (2 / 5)))
    let externalMarks := jsSub marksObtained internalMarks
    let g := gradeOfS marksObtained
    { name := subject.name, courseCode := subject.courseCode, credits := subject.credits,
      type := subject.type, totalMarks := subject.totalMarks,
      internalMarks := internalMarks, externalMarks := externalMarks,
      marksObtained := marksObtained, grade := g.1, gradePoints := g.2 }

/-- `subjects.reduce((sum, subject) => sum + subject.marksObtained, 0)` from
`generateStudentResult`: the running sum is a JavaScript number because
`marksObtained` can be `NaN`. -/
def totalMarksObtainedOf (subjects : List SubjectResult) : JSNum :=
  subjects.foldl (fun sum s => jsAdd sum s.marksObtained) (.num 0)

/-- `subjects.reduce((sum, subject) => sum + subject.totalMarks, 0)`. -/
def totalMarksOf (subjects : List SubjectResult) : ℕ :=
  subjects.foldl (fun sum s => sum + s.totalMarks) 0

/-- `subjects.reduce((sum, subject) => sum + subject.credits, 0)`. -/
def totalCreditsOf (subjects : List SubjectResult) : ℕ :=
  subjects.foldl (fun sum s => sum + s.credits) 0

/-- `subjects.reduce((sum, subject) => sum + subject.gradePoints * subject.credits, 0)`. -/
def totalGradePointsOf (subjects : List SubjectResult) : ℕ :=
  subjects.foldl (fun sum s => sum + s.gradePoints * s.credits) 0

/-- `sgpa = parseFloat((totalGradePoints / totalCredits).toFixed(2))` from
`generateStudentResult` (part_001, part_000) and `extractJNTUAResultData`
(pdfService).  There is no guard on `totalCredits`. -/
def sgpaOf (subjects : List SubjectResult) : JSNum :=
  jsToFixed2 (jsDiv (.num (totalGradePointsOf subjects)) (.num (totalCreditsOf subjects)))

/-- `percentage = Math.round((totalMarksObtained / totalMarks) * 100)` from
`generateStudentResult`.  There is no guard on `totalMarks`. -/
def percentageOf (subjects : List SubjectResult) : JSNum :=
  jsRound (jsMul (jsDiv (totalMarksObtainedOf subjects) (.num (totalMarksOf subjects))) (.num 100))

/-- Spec-side `round2`: rounding to two decimal places (nearest, ties up). -/
def round2 (q : ℚ) : ℚ := ((round (q * 100) : ℤ) : ℚ) / 100

/-- Spec-side Scheme S ladder, written from the spec's words: "marks >= 90
gives S/10, else >= 80 gives A/9, else >= 70 gives B/8, else >= 60 gives C/7,
else >= 50 gives D/6, else >= 40 gives E/5, else F/0". -/
def specGradeS (m : ℚ) : String × ℕ :=
  if 90 ≤ m then ("S", 10)
  else if 80 ≤ m then ("A", 9)
  else if 70 ≤ m then ("B", 8)
  else if 60 ≤ m then ("C", 7)
  else if 50 ≤ m then ("D", 6)
  else if 40 ≤ m then ("E", 5)
  else ("F", 0)

lemma jsGe_num_num (a b : ℚ) : jsGe (.num a) (.num b) = decide (b ≤ a) := rfl

/-- The part_000 ladder assigns the same grade points as the part_001 ladder
(the letters differ, the points coincide). -/
lemma gradePoints_A_eq_S (m : JSNum) : (gradeOfA m).2 = (gradeOfS m).2 := by
  unfold gradeOfA gradeOfS
  split_ifs <;> rfl

/- ===== C1: the SGPA computation has no division-by-zero guard; a subject
list with zero total credits produces a NaN SGPA instead of being rejected. -/

/-- C1: on a subject list with `totalCredits == 0` the code computes
`0 / 0` and propagates `NaN` through `toFixed(2)`/`parseFloat`; nothing in
`generateStudentResult` / `extractJNTUAResultData` rejects such a list (the
computation is total and yields `NaN`, not an error). -/
theorem sgpa_zero_credits_unguarded :
    totalCreditsOf [] = 0 ∧ sgpaOf [] = JSNum.nan := by
  exact ⟨rfl, by decide⟩

/- ===== C7: SGPA equals round2(totalGradePoints / totalCredits). -/

lemma sgpaOf_round2_aux (subjects : List SubjectResult)
    (h : totalCreditsOf subjects ≠ 0) :
    sgpaOf subjects
      = JSNum.num (round2 ((totalGradePointsOf subjects : ℚ) / (totalCreditsOf subjects : ℚ))) := by
  have hq : ((totalCreditsOf subjects : ℚ)) ≠ 0 := Nat.cast_ne_zero.mpr h
  unfold sgpaOf jsDiv jsToFixed2 round2
  simp [hq, round_eq]

/-- C7 (amended general part): for every subject list with nonzero total
credits, the computed SGPA is `totalGradePoints / totalCredits` rounded to two
decimal places. -/
theorem sgpaOf_eq_round2 (subjects : List SubjectResult)
    (h : totalCreditsOf subjects ≠ 0) :
    sgpaOf subjects
      = JSNum.num (round2 ((totalGradePointsOf subjects : ℚ) / (totalCreditsOf subjects : ℚ))) :=
  sgpaOf_round2_aux subjects h

/-- The subject list of the spec's SGPA example: credits `[4,4,3,3,3,2,2]`
paired with grade points `[8,9,7,6,8,9,7]` (the other fields are irrelevant to
the totals). -/
def c7Subjects : List SubjectResult :=
  [{ name := "S1", courseCode := "X1", credits := 4, type := "Theory", totalMarks := 100,
     internalMarks := .num 0, externalMarks := .num 0, marksObtained := .num 0,
     grade := "B", gradePoints := 8 },
   { name := "S2", courseCode := "X2", credits := 4, type := "Theory", totalMarks := 100,
     internalMarks := .num 0, externalMarks := .num 0, marksObtained := .num 0,
     grade := "A", gradePoints := 9 },
   { name := "S3", courseCode := "X3", credits := 3, type := "Theory", totalMarks := 100,
     internalMarks := .num 0, externalMarks := .num 0, marksObtained := .num 0,
     grade := "C", gradePoints := 7 },
   { name := "S4", courseCode := "X4", credits := 3, type := "Theory", totalMarks := 100,
     internalMarks := .num 0, externalMarks := .num 0, marksObtained := .num 0,
     grade := "D", gradePoints := 6 },
   { name := "S5", courseCode := "X5", credits := 3, type := "Theory", totalMarks := 100,
     internalMarks := .num 0, externalMarks := .num 0, marksObtained := .num 0,
     grade := "B", gradePoints := 8 },
   { name := "S6", courseCode := "X6", credits := 2, type := "Lab", totalMarks := 100,
     internalMarks := .num 0, externalMarks := .num 0, marksObtained := .num 0,
     grade := "A", gradePoints := 9 },
   { name := "S7", courseCode := "X7", credits := 2, type := "Theory", totalMarks := 100,
     internalMarks := .num 0, externalMarks := .num 0, marksObtained := .num 0,
     grade := "C", gradePoints := 7 }]

/-- C7 (counterexample to the claim's concrete figures): credits
`[4,4,3,3,3,2,2]` with grade points `[8,9,7,6,8,9,7]` give
`totalGradePoints = 4*8+4*9+3*7+3*6+3*8+2*9+2*7 = 163`, not `185`, and the
computed SGPA is `round2(163/21) = 7.76`, not `8.81`. -/
theorem spec_sgpa_example_mismatch :
    totalGradePointsOf c7Subjects = 163 ∧ totalGradePointsOf c7Subjects ≠ 185
    ∧ totalCreditsOf c7Subjects = 21
    ∧ sgpaOf c7Subjects = JSNum.num (776 / 100)
    ∧ sgpaOf c7Subjects ≠ JSNum.num (881 / 100) := by
  have h1 : totalGradePointsOf c7Subjects = 163 := rfl
  have h2 : totalCreditsOf c7Subjects = 21 := rfl
  have hs : sgpaOf c7Subjects = JSNum.num (776 / 100) := by
    rw [sgpaOf_round2_aux c7Subjects (by decide), h1, h2]
    have hfloor : (⌊(163 : ℚ) / 21 * 100 + 1 / 2⌋ : ℤ) = 776 := by
      rw [Int.floor_eq_iff]
      norm_num
    unfold round2
    rw [round_eq]
    push_cast
    rw [hfloor]
    norm_num
  refine ⟨h1, by decide, h2, hs, ?_⟩
  rw [hs]
  simp only [ne_eq, JSNum.num.injEq]
  norm_num

/-- C7 witness: the general rounding theorem applied to the example list. -/
theorem sgpaOf_eq_round2_witness :
    sgpaOf c7Subjects
      = JSNum.num (round2 ((totalGradePointsOf c7Subjects : ℚ) / (totalCreditsOf c7Subjects : ℚ))) :=
  sgpaOf_eq_round2 c7Subjects (by decide)

/- ===== C5: the Scheme S grade lookup is total and equals the reference
ladder, with inclusive thresholds. -/

/-- C5: for every numeric marks value the code ladder agrees with the spec
ladder (so the lookup is total, negative and out-of-range values landing in
the bottom bucket), and marks exactly on a boundary take the higher grade. -/
theorem gradeLadder_matches_spec :
    (∀ m : ℚ, gradeOfS (.num m) = specGradeS m)
    ∧ gradeOfS (.num 90) = ("S", 10) ∧ gradeOfS (.num 80) = ("A", 9)
    ∧ gradeOfS (.num 70) = ("B", 8) ∧ gradeOfS (.num 60) = ("C", 7)
    ∧ gradeOfS (.num 50) = ("D", 6) ∧ gradeOfS (.num 40) = ("E", 5)
    ∧ gradeOfS (.num (899 / 10)) = ("A", 9)
    ∧ gradeOfS (.num (-7)) = ("F", 0) := by
  refine ⟨fun m => ?_, by decide, by decide, by decide, by decide, by decide,
    by decide, by norm_num [gradeOfS, jsGe_num_num], by decide⟩
  unfold gradeOfS specGradeS
  simp only [jsGe_num_num, decide_eq_true_eq]

/- ===== C9: grade points are monotone in marks. -/

/-- C9: for all finite marks `m1 > m2`, the grade points assigned by the
Scheme S ladder (part_001, pdfService) and by the Scheme A ladder (part_000)
are monotone: `gradePoints(m1) >= gradePoints(m2)`. -/
theorem gradePoints_monotone (m1 m2 : ℚ) (h : m2 < m1) :
    (gradeOfS (.num m2)).2 ≤ (gradeOfS (.num m1)).2
    ∧ (gradeOfA (.num m2)).2 ≤ (gradeOfA (.num m1)).2 := by
  have hS : (gradeOfS (.num m2)).2 ≤ (gradeOfS (.num m1)).2 := by
    unfold gradeOfS
    simp only [jsGe_num_num, decide_eq_true_eq]
    split_ifs <;> first | decide | (exfalso; linarith)
  exact ⟨hS, by rw [gradePoints_A_eq_S, gradePoints_A_eq_S]; exact hS⟩

/-- C9 witness: monotonicity applied at marks 95 > 85. -/
theorem gradePoints_monotone_witness :
    (gradeOfS (.num 85)).2 ≤ (gradeOfS (.num 95)).2
    ∧ (gradeOfA (.num 85)).2 ≤ (gradeOfA (.num 95)).2 :=
  gradePoints_monotone 95 85 (by norm_num)

/- ===== Fixtures: subject-catalog entries taken verbatim from the source
(`btechSubjects`, `eceSubjects`, `standardSubjects`). -/

/-- The external-only internship entry of `btechSubjects` / `standardSubjects`. -/
def internshipSubject : SubjectDef :=
  { name := "Evaluation of Industry Internship", courseCode := "20A05707",
    credits := 3, type := "Theory", totalMarks := 100 }

/-- The first entry of `btechSubjects`. -/
def fullStackSubject : SubjectDef :=
  { name := "Full Stack Development", courseCode := "20A05703a",
    credits := 3, type := "Theory", totalMarks := 100 }

/-- The second entry of `btechSubjects`. -/
def cryptoSubject : SubjectDef :=
  { name := "Cryptography & Network Security", courseCode := "20A05702b",
    credits := 3, type := "Theory", totalMarks := 100 }

/-- A theory entry of `eceSubjects` (part_000). -/
def signalsSubject : SubjectDef :=
  { name := "Signals and Systems", courseCode := "20EC302",
    credits := 3, type := "Theory", totalMarks := 100 }

/-- Marks of at least 40 never reach the failing branch of the Scheme S
ladder. -/
lemma gradeOfS_of_ge40 (q : ℚ) (h : 40 ≤ q) :
    (gradeOfS (.num q)).1 ≠ "F" ∧ 5 ≤ (gradeOfS (.num q)).2 := by
  unfold gradeOfS
  simp only [jsGe_num_num, decide_eq_true_eq]
  split_ifs <;> first | (exact ⟨by decide, by decide⟩) | (exfalso; linarith)

/-- Marks of at least 40 never reach the failing branch of the Scheme A
ladder. -/
lemma gradeOfA_of_ge40 (q : ℚ) (h : 40 ≤ q) :
    (gradeOfA (.num q)).1 ≠ "F" ∧ 5 ≤ (gradeOfA (.num q)).2 := by
  unfold gradeOfA
  simp only [jsGe_num_num, decide_eq_true_eq]
  split_ifs <;> first | (exact ⟨by decide, by decide⟩) | (exfalso; linarith)

/- ===== C2: the invariant internalMarks + externalMarks == marksObtained. -/

/-- C2: the internship branch of part_001's `generateSubjectResult` draws
`externalMarks` and `marksObtained` as two independent `getRandomInt(90, 99)`
calls; with `Math.random()` outputs `0` and `0.5` the record has
`internalMarks = 0`, `externalMarks = 90` but `marksObtained = 95`, violating
`internalMarks + externalMarks == marksObtained`. -/
theorem internship_split_invariant_violated :
    (generateSubjectResult internshipSubject "219F1A0585" 0 0 (1 / 2)).internalMarks = JSNum.num 0
    ∧ (generateSubjectResult internshipSubject "219F1A0585" 0 0 (1 / 2)).externalMarks = JSNum.num 90
    ∧ (generateSubjectResult internshipSubject "219F1A0585" 0 0 (1 / 2)).marksObtained = JSNum.num 95
    ∧ jsAdd (generateSubjectResult internshipSubject "219F1A0585" 0 0 (1 / 2)).internalMarks
        (generateSubjectResult internshipSubject "219F1A0585" 0 0 (1 / 2)).externalMarks
      ≠ (generateSubjectResult internshipSubject "219F1A0585" 0 0 (1 / 2)).marksObtained := by
  simp [generateSubjectResult, internshipSubject, jsAdd]
  norm_num [getRandomInt]

/- ===== C6: the external-only internship subject bypass. -/

/-- C6: in pdfService's `generateSubjectsForJNTUA` the internship subject
always yields `internalMarks = 0`, `marksObtained = externalMarks`, grade `S`
with 10 points, for every hall ticket; but in part_001's
`generateSubjectResult` the same subject gets `marksObtained` drawn
independently of `externalMarks`, so with `Math.random()` outputs `0` and
`0.9` the record has `externalMarks = 90` yet `marksObtained = 99`,
contradicting `marksObtained = externalMarks`. -/
theorem externalOnly_bypass :
    (∀ hallTicket : String,
      (subjectForJNTUA internshipSubject hallTicket).internalMarks = JSNum.num 0
      ∧ (subjectForJNTUA internshipSubject hallTicket).marksObtained
          = (subjectForJNTUA internshipSubject hallTicket).externalMarks
      ∧ (subjectForJNTUA internshipSubject hallTicket).grade = "S"
      ∧ (subjectForJNTUA internshipSubject hallTicket).gradePoints = 10)
    ∧ ((generateSubjectResult internshipSubject "219F1A0585" 0 0 (9 / 10)).internalMarks = JSNum.num 0
      ∧ (generateSubjectResult internshipSubject "219F1A0585" 0 0 (9 / 10)).grade = "S"
      ∧ (generateSubjectResult internshipSubject "219F1A0585" 0 0 (9 / 10)).gradePoints = 10
      ∧ (generateSubjectResult internshipSubject "219F1A0585" 0 0 (9 / 10)).externalMarks = JSNum.num 90
      ∧ (generateSubjectResult internshipSubject "219F1A0585" 0 0 (9 / 10)).marksObtained = JSNum.num 99
      ∧ (generateSubjectResult internshipSubject "219F1A0585" 0 0 (9 / 10)).marksObtained
          ≠ (generateSubjectResult internshipSubject "219F1A0585" 0 0 (9 / 10)).externalMarks) := by
  constructor
  · intro ht
    simp [subjectForJNTUA, internshipSubject]
  · simp [generateSubjectResult, internshipSubject]
    norm_num [getRandomInt]

/- ===== C10: the sample generators clamp marks into [40, 100] — only when
the roll-number seed actually parses; otherwise NaN falls through to grade F. -/

/-- C10 (counterexample): for the sample roll number `219F1A05A7` (present in
part_001's `sampleStudents`), `parseInt("A7")` is `NaN`, the clamp
`Math.min(100, Math.max(40, NaN))` stays `NaN`, and the generated record for a
non-external-only subject has grade `F` with 0 grade points. -/
theorem sample_marks_nan_grade_F :
    (generateSubjectResult fullStackSubject "219F1A05A7" 0 0 0).marksObtained = JSNum.nan
    ∧ (generateSubjectResult fullStackSubject "219F1A05A7" 0 0 0).grade = "F"
    ∧ (generateSubjectResult fullStackSubject "219F1A05A7" 0 0 0).gradePoints = 0 := by
  decide

/-- C10 (amended): whenever the roll-number seed parses to a number (and, for
pdfService, the course code has a sixth character), each of the three
generators clamps `marksObtained` of a non-external-only subject into
`[40, 100]`, the grade is never `F`, and the grade points are at least 5 —
for every random draw. -/
theorem sample_marks_clamped :
    (∀ (subject : SubjectDef) (studentRoll : String) (r1 r2 r3 : ℚ),
      subject.courseCode ≠ "20A05707" →
      (∃ k : ℚ, parseIntJS (studentRoll.takeRight 2) = JSNum.num k) →
      ∃ q : ℚ,
        (generateSubjectResult subject studentRoll r1 r2 r3).marksObtained = JSNum.num q
        ∧ 40 ≤ q ∧ q ≤ 100
        ∧ (generateSubjectResult subject studentRoll r1 r2 r3).grade ≠ "F"
        ∧ 5 ≤ (generateSubjectResult subject studentRoll r1 r2 r3).gradePoints)
    ∧ (∀ (subject : SubjectDef) (studentRoll : String) (r1 : ℚ),
      (∃ k : ℚ, parseIntJS (studentRoll.takeRight 2) = JSNum.num k) →
      ∃ q : ℚ,
        (generateSubjectResultECE subject studentRoll r1).marksObtained = JSNum.num q
        ∧ 40 ≤ q ∧ q ≤ 100
        ∧ (generateSubjectResultECE subject studentRoll r1).grade ≠ "F"
        ∧ 5 ≤ (generateSubjectResultECE subject studentRoll r1).gradePoints)
    ∧ (∀ (subject : SubjectDef) (hallTicket : String),
      subject.courseCode ≠ "20A05707" →
      (∃ k : ℚ, parseIntJS (hallTicket.takeRight 3) = JSNum.num k) →
      (∃ c : ℚ, charCodeAt subject.courseCode 5 = JSNum.num c) →
      ∃ q : ℚ,
        (subjectForJNTUA subject hallTicket).marksObtained = JSNum.num q
        ∧ 40 ≤ q ∧ q ≤ 100
        ∧ (subjectForJNTUA subject hallTicket).grade ≠ "F"
        ∧ 5 ≤ (subjectForJNTUA subject hallTicket).gradePoints) := by
  refine ⟨?_, ?_, ?_⟩
  · intro subject studentRoll r1 r2 r3 hext ⟨k, hk⟩
    simp only [generateSubjectResult, hk, if_neg hext]
    simp only [jsMod, jsMul, jsAdd, jsMin, jsMax]
    norm_num
    exact gradeOfS_of_ge40 _ (le_min (by norm_num) (le_max_left _ _))
  · intro subject studentRoll r1 ⟨k, hk⟩
    simp only [generateSubjectResultECE, hk]
    simp only [jsMod, jsMul, jsAdd, jsMin, jsMax]
    norm_num
    exact gradeOfA_of_ge40 _ (le_min (by norm_num) (le_max_left _ _))
  · intro subject hallTicket hext ⟨k, hk⟩ ⟨c, hc⟩
    simp only [subjectForJNTUA, hk, hc, if_neg hext]
    simp only [jsMod, jsAdd, jsMin, jsMax]
    norm_num
    exact gradeOfS_of_ge40 _ (le_min (by norm_num) (le_max_left _ _))

/-- C10 witness: the clamping theorem applied to concrete subjects and roll
numbers whose seed parses. -/
theorem sample_marks_clamped_witness :
    (∃ q : ℚ,
      (generateSubjectResult cryptoSubject "219F1A0585" 0 0 0).marksObtained = JSNum.num q
      ∧ 40 ≤ q ∧ q ≤ 100
      ∧ (generateSubjectResult cryptoSubject "219F1A0585" 0 0 0).grade ≠ "F"
      ∧ 5 ≤ (generateSubjectResult cryptoSubject "219F1A0585" 0 0 0).gradePoints)
    ∧ (∃ q : ℚ,
      (generateSubjectResultECE signalsSubject "22EC011" 0).marksObtained = JSNum.num q
      ∧ 40 ≤ q ∧ q ≤ 100
      ∧ (generateSubjectResultECE signalsSubject "22EC011" 0).grade ≠ "F"
      ∧ 5 ≤ (generateSubjectResultECE signalsSubject "22EC011" 0).gradePoints)
    ∧ (∃ q : ℚ,
      (subjectForJNTUA cryptoSubject "219F1A0585").marksObtained = JSNum.num q
      ∧ 40 ≤ q ∧ q ≤ 100
      ∧ (subjectForJNTUA cryptoSubject "219F1A0585").grade ≠ "F"
      ∧ 5 ≤ (subjectForJNTUA cryptoSubject "219F1A0585").gradePoints) :=
  ⟨sample_marks_clamped.1 cryptoSubject "219F1A0585" 0 0 0 (by decide) ⟨85, by decide⟩,
   sample_marks_clamped.2.1 signalsSubject "22EC011" 0 ⟨11, by decide⟩,
   sample_marks_clamped.2.2 cryptoSubject "219F1A0585" (by decide) ⟨585, by decide⟩
     ⟨55, by decide⟩⟩

/- ===== Class statistics (Dashboard.jsx `BatchAnalysis` and part_004
`addSummaryWorksheet`). -/

/-- The fields of `result.data` consumed by the class-statistics code. -/
structure ResultRecord where
  sgpa : ℚ
  percentage : ℚ
  overallGrade : String
deriving DecidableEq, Repr

/-- `result.data?.sgpa || 0`: a missing `data` record contributes `0`. -/
def dataSgpa (r : Option ResultRecord) : ℚ := (r.map ResultRecord.sgpa).getD 0

/-- `result.data?.percentage || 0`. -/
def dataPercentage (r : Option ResultRecord) : ℚ := (r.map ResultRecord.percentage).getD 0

/-- The scalar statistics of `BatchAnalysis`'s `batchStats` memo. -/
structure BatchStats where
  totalStudents : ℕ
  passPercentage : JSNum
  averageSGPA : JSNum
  averagePercentage : JSNum
deriving DecidableEq, Repr

/-- The scalar head of `batchStats` (Dashboard.jsx): an empty results list
short-circuits to an all-zero record; otherwise the averages divide by
`results.length` and passes are counted at `sgpa >= 5.0`. -/
def batchStats (results : List (Option ResultRecord)) : BatchStats :=
  if results.length = 0 then
    { totalStudents := 0, passPercentage := .num 0,
      averageSGPA := .num 0, averagePercentage := .num 0 }
  else
    let totalSGPA := (results.map dataSgpa).sum
    let totalPercentage := (results.map dataPercentage).sum
    let passCount := (results.filter fun r => decide (5 ≤ dataSgpa r)).length
    { totalStudents := results.length,
      passPercentage := jsMul (jsDiv (.num passCount) (.num results.length)) (.num 100),
      averageSGPA := jsDiv (.num totalSGPA) (.num results.length),
      averagePercentage := jsDiv (.num totalPercentage) (.num results.length) }

/-- `addSummaryWorksheet`'s Average SGPA (part_004): the reduce-sum of
`result.data?.sgpa || 0` divided by `results.length`, with no empty-cohort
guard. -/
def summaryAverageSGPA (results : List (Option ResultRecord)) : JSNum :=
  jsDiv (.num (results.map dataSgpa).sum) (.num results.length)

/-- `addSummaryWorksheet`'s Average Percentage (part_004), equally
unguarded. -/
def summaryAveragePercentage (results : List (Option ResultRecord)) : JSNum :=
  jsDiv (.num (results.map dataPercentage).sum) (.num results.length)

/-- C3: on an empty cohort Dashboard's `batchStats` takes its guard branch and
returns the all-zero record, but part_004's `addSummaryWorksheet` has no such
guard and computes `0 / 0`: both of its averages are `NaN`, not a defined
boundary output. -/
theorem emptyCohort_summary_divides_by_zero :
    summaryAverageSGPA [] = JSNum.nan
    ∧ summaryAveragePercentage [] = JSNum.nan
    ∧ batchStats [] =
      { totalStudents := 0, passPercentage := .num 0,
        averageSGPA := .num 0, averagePercentage := .num 0 } := by
  refine ⟨by decide, by decide, rfl⟩

/- ===== Per-subject class averages (Dashboard.jsx `BatchAnalysis`
`subjectPerformance` accumulation). -/

/-- A row of a student's transcript as read by the statistics code. -/
structure TranscriptSubject where
  name : String
  marksObtained : ℚ
deriving DecidableEq, Repr

/-- A cohort member's transcript (`result.data.subjects`). -/
structure CohortStudent where
  subjects : List TranscriptSubject
deriving DecidableEq, Repr

/-- `subjectPerformance[name].totalMarks` after the `results.forEach` pass of
`BatchAnalysis`: every matching transcript row adds its `marksObtained`. -/
def subjectMarksTotal (results : List CohortStudent) (name : String) : ℚ :=
  (results.map fun st =>
    ((st.subjects.filter fun sj => sj.name == name).map TranscriptSubject.marksObtained).sum).sum

/-- `subjectPerformance[name].count` after the same pass. -/
def subjectMarksCount (results : List CohortStudent) (name : String) : ℕ :=
  (results.map fun st => (st.subjects.filter fun sj => sj.name == name).length).sum

/-- `average: data.totalMarks / data.count` for one subject name. -/
def subjectAverage (results : List CohortStudent) (name : String) : JSNum :=
  jsDiv (.num (subjectMarksTotal results name)) (.num (subjectMarksCount results name))

/-- Whether a student's transcript contains the subject. -/
def hasSubject (st : CohortStudent) (name : String) : Bool :=
  st.subjects.any fun sj => sj.name == name

/-- The student's mark in the subject (first matching transcript row). -/
def subjectMarkOf (st : CohortStudent) (name : String) : ℚ :=
  ((st.subjects.find? fun sj => sj.name == name).map TranscriptSubject.marksObtained).getD 0

/-- Spec-side average: the mean of `marksObtained` over exactly the students
who have the subject. -/
def specSubjectAverage (results : List CohortStudent) (name : String) : ℚ :=
  ((results.filter fun st => hasSubject st name).map fun st => subjectMarkOf st name).sum
    / ((results.filter fun st => hasSubject st name).length : ℚ)

lemma filter_name_eq (name : String) (subjects : List TranscriptSubject)
    (hnd : (subjects.map TranscriptSubject.name).Nodup) :
    ((subjects.filter fun sj => sj.name == name).map TranscriptSubject.marksObtained).sum
        = (if (subjects.any fun sj => sj.name == name) then
            ((subjects.find? fun sj => sj.name == name).map TranscriptSubject.marksObtained).getD 0
          else 0)
    ∧ (subjects.filter fun sj => sj.name == name).length
        = (if (subjects.any fun sj => sj.name == name) then 1 else 0) := by
  induction subjects with
  | nil => simp
  | cons sj rest ih =>
    simp only [List.map_cons, List.nodup_cons] at hnd
    obtain ⟨hni, hndr⟩ := hnd
    by_cases hmatch : (sj.name == name) = true
    · have hrest : (rest.filter fun x => x.name == name) = [] := by
        rw [List.filter_eq_nil_iff]
        intro x hx hxname
        refine hni ?_
        have : x.name = sj.name := by
          rw [beq_iff_eq] at hmatch hxname
          rw [hxname, hmatch]
        rw [← this]
        exact List.mem_map_of_mem _ hx
      simp [List.filter_cons, List.find?_cons, List.any_cons, hmatch, hrest]
    · have hm : (sj.name == name) = false := by
        simpa using hmatch
      obtain ⟨ihs, ihl⟩ := ih hndr
      simp [List.filter_cons, List.find?_cons, List.any_cons, hm, ihs, ihl]

lemma subjectStats_spec (name : String) (results : List CohortStudent)
    (h : ∀ st ∈ results, (st.subjects.map TranscriptSubject.name).Nodup) :
    subjectMarksTotal results name
        = ((results.filter fun st => hasSubject st name).map fun st => subjectMarkOf st name).sum
    ∧ subjectMarksCount results name
        = (results.filter fun st => hasSubject st name).length := by
  induction results with
  | nil => simp [subjectMarksTotal, subjectMarksCount]
  | cons r rest ih =>
    have hr := h r (List.mem_cons_self _ _)
    have hrest := fun st hst => h st (List.mem_cons_of_mem _ hst)
    obtain ⟨iht, ihc⟩ := ih hrest
    obtain ⟨hsum, hlen⟩ := filter_name_eq name r.subjects hr
    have e1 : subjectMarksTotal (r :: rest) name
        = ((r.subjects.filter fun sj => sj.name == name).map TranscriptSubject.marksObtained).sum
          + subjectMarksTotal rest name := by
      simp [subjectMarksTotal]
    have e2 : subjectMarksCount (r :: rest) name
        = (r.subjects.filter fun sj => sj.name == name).length + subjectMarksCount rest name := by
      simp [subjectMarksCount]
    by_cases hhas : hasSubject r name = true
    · have hb : (r.subjects.any fun sj => sj.name == name) = true := hhas
      have hfil : ((r :: rest).filter fun st => hasSubject st name)
          = r :: (rest.filter fun st => hasSubject st name) := by
        simp [List.filter_cons, hhas]
      rw [e1, e2, hsum, hlen, iht, ihc, hfil, if_pos hb, List.map_cons, List.sum_cons,
        List.length_cons]
      exact ⟨by simp [subjectMarkOf], by simp only [if_pos hb]; omega⟩
    · have hb2 : hasSubject r name = false := by
        simpa using hhas
      have hb : (r.subjects.any fun sj => sj.name == name) = false := hb2
      have hfil : ((r :: rest).filter fun st => hasSubject st name)
          = rest.filter fun st => hasSubject st name := by
        simp [List.filter_cons, hb2]
      rw [e1, e2, hsum, hlen, iht, ihc, hfil, if_neg (by simp [hb])]
      exact ⟨by ring, by simp [hb]⟩

/-- C8: for a subject name present somewhere in the cohort (and transcripts
without duplicate subject names), the accumulated count equals the number of
students who have the subject, and the class average is the mean of exactly
those students' marks — students lacking the subject are excluded from both
numerator and denominator. -/
theorem subjectAverage_excludes_missing (results : List CohortStudent) (name : String)
    (hnd : ∀ st ∈ results, (st.subjects.map TranscriptSubject.name).Nodup)
    (hsome : (results.any fun st => hasSubject st name) = true) :
    subjectMarksCount results name = (results.filter fun st => hasSubject st name).length
    ∧ subjectAverage results name = JSNum.num (specSubjectAverage results name) := by
  obtain ⟨ht, hc⟩ := subjectStats_spec name results hnd
  refine ⟨hc, ?_⟩
  have hpos : 0 < (results.filter fun st => hasSubject st name).length := by
    obtain ⟨st, hst, hhas⟩ := List.any_eq_true.mp hsome
    exact List.length_pos.mpr (List.ne_nil_of_mem (List.mem_filter.mpr ⟨hst, hhas⟩))
  have hne : (((results.filter fun st => hasSubject st name).length : ℚ)) ≠ 0 := by
    exact_mod_cast Nat.pos_iff_ne_zero.mp hpos
  unfold subjectAverage specSubjectAverage jsDiv
  rw [ht, hc]
  simp [hne]

/-- The 3-student cohort of the spec's exclusion example: only the first two
students have "Subject X" (marks 80 and 60). -/
def c8Cohort : List CohortStudent :=
  [⟨[⟨"Subject X", 80⟩, ⟨"Subject Y", 50⟩]⟩,
   ⟨[⟨"Subject X", 60⟩]⟩,
   ⟨[⟨"Subject Y", 90⟩]⟩]

/-- C8 witness: on the 3-student cohort where 2 students have "Subject X",
the count divides by 2 (not 3) and the average is `(80+60)/2 = 70`. -/
theorem subjectAverage_excludes_missing_witness :
    (subjectMarksCount c8Cohort "Subject X"
        = (c8Cohort.filter fun st => hasSubject st "Subject X").length
      ∧ subjectAverage c8Cohort "Subject X" = JSNum.num (specSubjectAverage c8Cohort "Subject X"))
    ∧ (c8Cohort.filter fun st => hasSubject st "Subject X").length = 2
    ∧ specSubjectAverage c8Cohort "Subject X" = 70 := by
  refine ⟨subjectAverage_excludes_missing c8Cohort "Subject X" (by decide) (by decide), by decide, ?_⟩
  have hfil : (c8Cohort.filter fun st => hasSubject st "Subject X")
      = [⟨[⟨"Subject X", 80⟩, ⟨"Subject Y", 50⟩]⟩, ⟨[⟨"Subject X", 60⟩]⟩] := by decide
  have h1 : subjectMarkOf ⟨[⟨"Subject X", 80⟩, ⟨"Subject Y", 50⟩]⟩ "Subject X" = 80 := by decide
  have h2 : subjectMarkOf ⟨[⟨"Subject X", 60⟩]⟩ "Subject X" = 60 := by decide
  unfold specSubjectAverage
  rw [hfil]
  simp [h1, h2]
  norm_num

/- ===== Cohort ranking (`generateSampleStudentData`, part_001 / part_000). -/

/-- The fields of a student aggregate read and written by the ranking pass:
the identity key (`studentInfo.rollNumber`), the sort key (`sgpa`) and the
`rank` field it overwrites. -/
structure RankedStudent where
  rollNumber : String
  sgpa : ℚ
  rank : ℕ
deriving DecidableEq, Repr

/-- The comparator `(a, b) => b.sgpa - a.sgpa`: `a` may stay before `b`
exactly when `b.sgpa ≤ a.sgpa`. -/
def sgpaDescRel (a b : RankedStudent) : Prop := b.sgpa ≤ a.sgpa

instance : DecidableRel sgpaDescRel :=
  fun a b => inferInstanceAs (Decidable (b.sgpa ≤ a.sgpa))

instance : IsTotal RankedStudent sgpaDescRel := ⟨fun a b => le_total b.sgpa a.sgpa⟩

instance : IsTrans RankedStudent sgpaDescRel := ⟨fun _ _ _ hab hbc => le_trans hbc hab⟩

/-- `[...rawResults].sort((a, b) => b.sgpa - a.sgpa)`.  JavaScript's
`Array.prototype.sort` is stable (ES2019), and a stable sort's output is the
unique permutation that is sorted by the comparator and keeps ties in input
order; `List.insertionSort` with `sgpaDescRel` computes exactly that
permutation (ties stop the insertion, so earlier elements stay first). -/
def sortBySgpaDesc (cohort : List RankedStudent) : List RankedStudent :=
  List.insertionSort sgpaDescRel cohort

/-- `sortedResults.map((result, index) => ({...result, rank: index + 1}))`,
generalised to start numbering at `n`. -/
def assignRanks : ℕ → List RankedStudent → List RankedStudent
  | _, [] => []
  | n, x :: xs => { x with rank := n } :: assignRanks (n + 1) xs

/-- The ranking pass of `generateSampleStudentData`: sort a copy by SGPA
descending, assign `rank = index + 1`, then rebuild the caller's order by
looking each roll number up with `find` (which can return `undefined`,
modelled by `Option`). -/
def rankCohort (cohort : List RankedStudent) : List (Option RankedStudent) :=
  let rankedResults := assignRanks 1 (sortBySgpaDesc cohort)
  cohort.map fun orig => rankedResults.find? fun r => r.rollNumber == orig.rollNumber

lemma assignRanks_map_rank :
    ∀ (l : List RankedStudent) (n : ℕ),
      (assignRanks n l).map RankedStudent.rank = List.range' n l.length
  | [], _ => rfl
  | x :: xs, n => by
      simp [assignRanks, List.range'_succ, assignRanks_map_rank xs (n + 1)]

lemma find?_assignRanks (s : RankedStudent) :
    ∀ (l : List RankedStudent) (n : ℕ), s ∈ l →
      ((l.map RankedStudent.rollNumber).Nodup) →
      (assignRanks n l).find? (fun r => r.rollNumber == s.rollNumber)
        = some { s with rank := n + l.findIdx fun r => r.rollNumber == s.rollNumber } := by
  intro l
  induction l with
  | nil => intro n hs; cases hs
  | cons x xs ih =>
    intro n hs hnd
    simp only [List.map_cons, List.nodup_cons] at hnd
    obtain ⟨hx, hnds⟩ := hnd
    by_cases hxr : (x.rollNumber == s.rollNumber) = true
    · have hxs : x = s := by
        rcases List.mem_cons.mp hs with h | h
        · exact h.symm
        · exact absurd (beq_iff_eq.mp hxr ▸ List.mem_map_of_mem RankedStudent.rollNumber h) hx
      subst hxs
      simp [assignRanks, List.find?_cons, List.findIdx_cons]
    · have hmem : s ∈ xs := by
        rcases List.mem_cons.mp hs with h | h
        · subst h; exact absurd (beq_self_eq_true _) hxr
        · exact h
      have hxr' : ((x.rollNumber : String) == s.rollNumber) = false := by
        simpa using hxr
      simp only [assignRanks, List.find?_cons, List.findIdx_cons, hxr', cond_false]
      rw [ih (n + 1) hmem hnds]
      exact congrArg some (by simp [Nat.add_comm, Nat.add_assoc, Nat.add_left_comm])

lemma assignRanks_eq_map :
    ∀ (l : List RankedStudent), ((l.map RankedStudent.rollNumber).Nodup) →
      ∀ n, assignRanks n l
        = l.map fun s => { s with rank := n + l.findIdx fun r => r.rollNumber == s.rollNumber } := by
  intro l
  induction l with
  | nil => intro _ n; rfl
  | cons x xs ih =>
    intro hnd n
    simp only [List.map_cons, List.nodup_cons] at hnd
    obtain ⟨hx, hnds⟩ := hnd
    have hhead : (x.rollNumber == x.rollNumber) = true := beq_self_eq_true _
    have htail : ∀ s ∈ xs, (x.rollNumber == s.rollNumber) = false := by
      intro s hs
      by_contra hcon
      have : (x.rollNumber == s.rollNumber) = true := by
        revert hcon
        cases x.rollNumber == s.rollNumber <;> simp
      exact hx (beq_iff_eq.mp this ▸ List.mem_map_of_mem RankedStudent.rollNumber hs)
    show ({ x with rank := n } :: assignRanks (n + 1) xs) = _
    rw [List.map_cons]
    congr 1
    · simp [List.findIdx_cons, hhead]
    · rw [ih hnds (n + 1)]
      refine List.map_congr_left fun s hs => ?_
      simp [List.findIdx_cons, htail s hs, Nat.add_comm, Nat.add_assoc, Nat.add_left_comm]

lemma filterMap_id_map_some {α β : Type} (f : α → β) (l : List α) :
    (l.map fun a => some (f a)).filterMap id = l.map f := by
  induction l with
  | nil => rfl
  | cons a t ih => simp [ih]

lemma filter_orderedInsert_sgpa (q : ℚ) (x : RankedStudent) :
    ∀ l : List RankedStudent,
      (List.orderedInsert sgpaDescRel x l).filter (fun s => s.sgpa == q)
        = (x :: l).filter fun s => s.sgpa == q := by
  intro l
  induction l with
  | nil => rfl
  | cons y ys ih =>
    rw [List.orderedInsert]
    by_cases h : sgpaDescRel x y
    · rw [if_pos h]
    · rw [if_neg h]
      by_cases hyq : (y.sgpa == q) = true
      · have hxq : (x.sgpa == q) = false := by
          by_contra hcon
          have hxq' : (x.sgpa == q) = true := by
            revert hcon
            cases x.sgpa == q <;> simp
          exact h (by unfold sgpaDescRel; rw [beq_iff_eq.mp hyq, beq_iff_eq.mp hxq'])
        simp [List.filter_cons, hyq, hxq, ih]
      · have hyq' : (y.sgpa == q) = false := by
          revert hyq
          cases y.sgpa == q <;> simp
        simp [List.filter_cons, hyq', ih]

lemma sortBySgpaDesc_stable_filter (cohort : List RankedStudent) (q : ℚ) :
    (sortBySgpaDesc cohort).filter (fun s => s.sgpa == q)
      = cohort.filter fun s => s.sgpa == q := by
  unfold sortBySgpaDesc
  induction cohort with
  | nil => rfl
  | cons x xs ih =>
    rw [List.insertionSort, filter_orderedInsert_sgpa]
    simp [List.filter_cons, ih]

/-- C4: on a cohort with pairwise-distinct roll numbers the ranking pass
returns the students in the caller's original order (each wrapped in `some`,
its `rank` set to one plus its position in the stable descending-SGPA sort),
the multiset of assigned ranks is exactly `1..n`, the sorted copy is
descending in SGPA, and ties keep their original relative order (ordinal
ranking). -/
theorem rankCohort_spec (cohort : List RankedStudent)
    (hnd : (cohort.map RankedStudent.rollNumber).Nodup) :
    rankCohort cohort
      = cohort.map (fun s => some { s with
          rank := 1 + (sortBySgpaDesc cohort).findIdx fun r => r.rollNumber == s.rollNumber })
    ∧ List.Perm (((rankCohort cohort).filterMap id).map RankedStudent.rank)
        (List.range' 1 cohort.length)
    ∧ List.Sorted sgpaDescRel (sortBySgpaDesc cohort)
    ∧ ∀ q : ℚ, (sortBySgpaDesc cohort).filter (fun s => s.sgpa == q)
        = cohort.filter fun s => s.sgpa == q := by
  have hperm : List.Perm (sortBySgpaDesc cohort) cohort := List.perm_insertionSort _ _
  have hndS : ((sortBySgpaDesc cohort).map RankedStudent.rollNumber).Nodup :=
    (hperm.map RankedStudent.rollNumber).nodup_iff.mpr hnd
  have h1 : rankCohort cohort
      = cohort.map (fun s => some { s with
          rank := 1 + (sortBySgpaDesc cohort).findIdx fun r => r.rollNumber == s.rollNumber }) := by
    unfold rankCohort
    refine List.map_congr_left fun s hs => ?_
    exact find?_assignRanks s (sortBySgpaDesc cohort) 1 (hperm.mem_iff.mpr hs) hndS
  refine ⟨h1, ?_, List.sorted_insertionSort _ _, fun q => sortBySgpaDesc_stable_filter cohort q⟩
  have hmap : (rankCohort cohort).filterMap id
      = cohort.map fun s => { s with
          rank := 1 + (sortBySgpaDesc cohort).findIdx fun r => r.rollNumber == s.rollNumber } := by
    rw [h1]
    exact filterMap_id_map_some _ cohort
  rw [hmap]
  have hassign : assignRanks 1 (sortBySgpaDesc cohort)
      = (sortBySgpaDesc cohort).map fun s => { s with
          rank := 1 + (sortBySgpaDesc cohort).findIdx fun r => r.rollNumber == s.rollNumber } := by
    rw [assignRanks_eq_map (sortBySgpaDesc cohort) hndS 1]
  have e3 : (((sortBySgpaDesc cohort).map fun s => { s with
        rank := 1 + (sortBySgpaDesc cohort).findIdx
          fun r => r.rollNumber == s.rollNumber }).map RankedStudent.rank)
      = List.range' 1 cohort.length := by
    rw [← hassign, assignRanks_map_rank, hperm.length_eq]
  exact e3 ▸ ((hperm.map _).map RankedStudent.rank).symm

/-- The cohort of the spec's ordinal-ranking example: SGPAs `[9.0, 9.0, 8.0]`
with distinct roll numbers. -/
def c4Cohort : List RankedStudent :=
  [⟨"R1", 9, 0⟩, ⟨"R2", 9, 0⟩, ⟨"R3", 8, 0⟩]

/-- C4 witness: the ranking theorem applied to the `[9.0, 9.0, 8.0]` cohort,
together with the concrete output: ordinal ranks `[1, 2, 3]` in the original
order, not competition-style `[1, 1, 3]`. -/
theorem rankCohort_spec_witness :
    (rankCohort c4Cohort
        = c4Cohort.map (fun s => some { s with
            rank := 1 + (sortBySgpaDesc c4Cohort).findIdx fun r => r.rollNumber == s.rollNumber })
      ∧ List.Perm (((rankCohort c4Cohort).filterMap id).map RankedStudent.rank)
          (List.range' 1 c4Cohort.length)
      ∧ List.Sorted sgpaDescRel (sortBySgpaDesc c4Cohort)
      ∧ ∀ q : ℚ, (sortBySgpaDesc c4Cohort).filter (fun s => s.sgpa == q)
          = c4Cohort.filter fun s => s.sgpa == q)
    ∧ rankCohort c4Cohort
        = [some ⟨"R1", 9, 1⟩, some ⟨"R2", 9, 2⟩, some ⟨"R3", 8, 3⟩] :=
  ⟨rankCohort_spec c4Cohort (by decide), by decide⟩

end ResultAnalysis
